import Mathlib

/-
Verification development for the janus synthesizer core
(src/janus/src/lib.rs, devices/mod.rs, devices/amp.rs, devices/filt.rs).

Devices are embedded by explicit state passing: a Rust `&mut self` method
becomes a Lean function from the instance state to (output, new state).
Internal fixed-capacity buffers (`BufferT<Smp> = [Smp; 256]`) are embedded
as total maps `Nat → Smp`; a `process` call only ever writes indices below
256, so this is conservative.  Floating-point devices in Rust are generic
over `Smp: Float`; they are embedded generically over a `FloatOps`
structure carrying exactly the operations and constants the trait supplies.
Fixed-point values are embedded by their raw two's-complement integers
(`SampleFxP` = I4F12 raw i16, `ScalarFxP` = U0F16 raw u16, `NoteFxP` =
U7F9 raw u16) with explicit scaling, flooring and saturation.
-/

namespace Janus

/-- Buffer capacity `STATIC_BUFFER_SIZE` from `lib.rs`. -/
def STATIC_BUFFER_SIZE : Nat := 256

/-- Sample rate constant `SAMPLE_RATE` from `devices/mod.rs`. -/
def SAMPLE_RATE : Nat := 44100

/-- Modelled from the spec: `util::min_size` (module `util` is not in the
excerpt).  The spec states every device's output length is the minimum of
all input lengths and the buffer capacity, so `min_size` returns the
minimum of the given list of sizes. -/
def min_size : List Nat → Nat
  | [] => 0
  | x :: xs => xs.foldl min x

/-- Pointwise update of a device buffer at one index (an array store). -/
def updW {α : Type} (f : Nat → α) (i : Nat) (v : α) : Nat → α :=
  fun j => if j = i then v else f j

/-- The `Float` trait of `devices/mod.rs`: arithmetic, comparison and the
transcendental operations the devices use, together with the constants the
trait provides (`ZERO`, `ONE`, `TWO`, `RES_MAX`), plus the `Smp::from`
conversion and `Smp::PI()`.  The devices are generic over this interface
exactly as the Rust code is generic over `Smp: Float`. -/
structure FloatOps (Smp : Type) where
  add : Smp → Smp → Smp
  sub : Smp → Smp → Smp
  mul : Smp → Smp → Smp
  div : Smp → Smp → Smp
  lt : Smp → Smp → Bool
  tan : Smp → Smp
  exp2 : Smp → Smp
  pi : Smp
  ofNat : Nat → Smp
  zero : Smp
  one : Smp
  two : Smp
  resMax : Smp

variable {Smp : Type}

/-- The `RES_MAX` constant of the `impl Float for f32` / `for f64` blocks in
`devices/mod.rs`: `0xF000 as f32 / 0xFFFF as f32`, as an exact rational. -/
def floatImplResMax : ℚ := 0xF000 / 0xFFFF

/-- The function `midi_note_to_frequency` of `devices/mod.rs`:
`440 * exp2((note - 69) / 12)`. -/
def midi_note_to_frequency (F : FloatOps Smp) (note : Smp) : Smp :=
  F.mul (F.ofNat 440) (F.exp2 (F.div (F.sub note (F.ofNat 69)) (F.ofNat 12)))

/-- The floating-point amplifier `Amp<Smp>` of `devices/amp.rs`: its only
field is the internal output buffer `outbuf`. -/
structure Amp (Smp : Type) where
  outbuf : Nat → Smp

/-- The constructor `Amp::new`, zero-filling the buffer. -/
def Amp.new (F : FloatOps Smp) : Amp Smp :=
  ⟨fun _ => F.zero⟩

/-- The loop body of `Amp::process`: starting at index `i`, perform the
given number of iterations of `outbuf[i] = signal[i] * gain[i]`. -/
def Amp.runFrom (F : FloatOps Smp) (signal gain : List Smp) :
    (Nat → Smp) → Nat → Nat → (Nat → Smp)
  | buf, _, 0 => buf
  | buf, i, k + 1 =>
      Amp.runFrom F signal gain
        (updW buf i (F.mul (signal.getD i F.zero) (gain.getD i F.zero))) (i + 1) k

/-- The method `Amp::process`: `numsamples = min_size([signal.len(),
gain.len(), STATIC_BUFFER_SIZE])`, multiply pointwise into `outbuf`, return
the view `outbuf[0..numsamples]` together with the updated instance. -/
def Amp.process (F : FloatOps Smp) (a : Amp Smp) (signal gain : List Smp) :
    List Smp × Amp Smp :=
  let numsamples := min_size [signal.length, gain.length, STATIC_BUFFER_SIZE]
  let buf := Amp.runFrom F signal gain a.outbuf 0 numsamples
  ((List.range numsamples).map buf, ⟨buf⟩)

/-- The output view of `Filt::process` (`FiltOutput` in `devices/filt.rs`):
low-, band- and high-pass signals. -/
structure FiltOutput (Smp : Type) where
  low : List Smp
  band : List Smp
  high : List Smp

/-- The parameter lengths rule `FiltParams::len` of `devices/filt.rs`: the
length of the shortest of the `cutoff` and `resonance` slices. -/
def FiltParams.len (cutoff resonance : List Smp) : Nat :=
  min cutoff.length resonance.length

/-- The 2-pole floating-point state-variable filter `Filt<Smp>` of
`devices/filt.rs`: three internal output buffers plus the two persistent
state variables `low_z` and `band_z`. -/
structure Filt (Smp : Type) where
  low : Nat → Smp
  band : Nat → Smp
  high : Nat → Smp
  low_z : Smp
  band_z : Smp

/-- The constructor `Filt::new`, zero-filling buffers and state. -/
def Filt.new (F : FloatOps Smp) : Filt Smp :=
  { low := fun _ => F.zero, band := fun _ => F.zero, high := fun _ => F.zero
    low_z := F.zero, band_z := F.zero }

/-- The helper `Filt::prewarped_gain`:
`tan(PI * midi_note_to_frequency(f) / SAMPLE_RATE)`. -/
def Filt.prewarped_gain (F : FloatOps Smp) (f : Smp) : Smp :=
  F.tan (F.div (F.mul F.pi (midi_note_to_frequency F f)) (F.ofNat SAMPLE_RATE))

/-- The resonance coefficient computed by `Filt::process`:
`ONE - (if resonance[i] < RES_MAX then resonance[i] else RES_MAX)`. -/
def Filt.resOf (F : FloatOps Smp) (r : Smp) : Smp :=
  F.sub F.one (if F.lt r F.resMax then r else F.resMax)

/-- One iteration of the loop body of `Filt::process` at index `i`: clamp
resonance to `RES_MAX`, recompute the prewarped gain from `cutoff[i]`,
produce the high/band/low outputs and update `band_z` and `low_z`. -/
def Filt.step (F : FloatOps Smp) (input cutoff resonance : List Smp)
    (s : Filt Smp) (i : Nat) : Filt Smp :=
  let res := Filt.resOf F (resonance.getD i F.zero)
  let gain := Filt.prewarped_gain F (cutoff.getD i F.zero)
  let denom := F.add (F.add (F.mul gain gain) (F.mul (F.mul F.two res) gain)) F.one
  let hi := F.div
    (F.sub (F.sub (input.getD i F.zero)
        (F.mul (F.add (F.mul F.two res) gain) s.band_z)) s.low_z) denom
  let band_gain := F.mul gain hi
  let bi := F.add band_gain s.band_z
  let low_gain := F.mul gain bi
  let li := F.add low_gain s.low_z
  { low := updW s.low i li, band := updW s.band i bi, high := updW s.high i hi
    low_z := F.add li low_gain, band_z := F.add bi band_gain }

/-- The loop of `Filt::process`: starting at index `i`, run the given
number of iterations of `Filt.step`. -/
def Filt.runFrom (F : FloatOps Smp) (input cutoff resonance : List Smp) :
    Filt Smp → Nat → Nat → Filt Smp
  | s, _, 0 => s
  | s, i, k + 1 =>
      Filt.runFrom F input cutoff resonance
        (Filt.step F input cutoff resonance s i) (i + 1) k

/-- The sample count of `Filt::process`:
`min(STATIC_BUFFER_SIZE, min(input.len(), params.len()))`. -/
def Filt.numsamples (input cutoff resonance : List Smp) : Nat :=
  min STATIC_BUFFER_SIZE (min input.length (FiltParams.len cutoff resonance))

/-- The state of a `Filt` instance after the first `j` loop iterations of a
`process` call (the Rust `self` as seen at the top of iteration `j`). -/
def Filt.stateAfter (F : FloatOps Smp) (input cutoff resonance : List Smp)
    (s : Filt Smp) (j : Nat) : Filt Smp :=
  Filt.runFrom F input cutoff resonance s 0 j

/-- The method `Filt::process`: run the loop for `numsamples` iterations and
return the three buffer views `[0..numsamples]` with the updated instance. -/
def Filt.process (F : FloatOps Smp) (s : Filt Smp)
    (input cutoff resonance : List Smp) : FiltOutput Smp × Filt Smp :=
  let numsamples := Filt.numsamples input cutoff resonance
  let s2 := Filt.runFrom F input cutoff resonance s 0 numsamples
  (⟨(List.range numsamples).map s2.low, (List.range numsamples).map s2.band,
    (List.range numsamples).map s2.high⟩, s2)

/-- Raw two's-complement value of a fixed-point audio sample
`SampleFxP` = I4F12 (backed by `i16`): the represented value is `raw / 2^12`. -/
abbrev SampleFxP := Int

/-- Raw value of an unsigned scalar `ScalarFxP` = U0F16 (backed by `u16`):
the represented value is `raw / 2^16`. -/
abbrev ScalarFxP := Nat

/-- Raw value of a MIDI note number `NoteFxP` = U7F9 (backed by `u16`):
the represented value is `raw / 2^9`. -/
abbrev NoteFxP := Nat

/-- The represented rational value of a `SampleFxP` raw integer. -/
def sampleVal (x : SampleFxP) : ℚ := (x : ℚ) / 4096

/-- The represented rational value of a `ScalarFxP` raw integer. -/
def scalarVal (x : ScalarFxP) : ℚ := (x : ℚ) / 65536

/-- The raw value of `ScalarFxP::MAX` (`0x0.FFFF`, i.e. `1 - 2^-16`). -/
def scalarMax : ScalarFxP := 0xFFFF

/-- Saturation of a raw integer to the `i16` backing range of `SampleFxP`
(`SampleFxP::MAX` raw = 32767, `SampleFxP::MIN` raw = -32768). -/
def satSample (x : Int) : Int := min 32767 (max (-32768) x)

/-- The conversion `SampleFxP::saturating_from_num` applied to an `I12F20`
raw value: truncate the extra 8 fraction bits (floor) and saturate. -/
def i12f20_to_sample (v : Int) : SampleFxP := satSample (Int.fdiv v 256)

/-- The fixed-point `saturating_mul` on `SampleFxP` (I4F12): full-width
product, truncation of the extra fraction bits, saturation to range. -/
def saturating_mul (a b : SampleFxP) : SampleFxP :=
  satSample (Int.fdiv (a * b) 4096)

/-- The fixed-point amplifier `AmpFxP` of `devices/amp.rs`. -/
structure AmpFxP where
  outbuf : Nat → SampleFxP

/-- The constructor `AmpFxP::new`, zero-filling the buffer. -/
def AmpFxP.new : AmpFxP := ⟨fun _ => 0⟩

/-- The loop body of `AmpFxP::process`: starting at index `i`, perform the
given number of iterations of `outbuf[i] = signal[i].saturating_mul(gain[i])`. -/
def AmpFxP.runFrom (signal gain : List SampleFxP) :
    (Nat → SampleFxP) → Nat → Nat → (Nat → SampleFxP)
  | buf, _, 0 => buf
  | buf, i, k + 1 =>
      AmpFxP.runFrom signal gain
        (updW buf i (saturating_mul (signal.getD i 0) (gain.getD i 0))) (i + 1) k

/-- The method `AmpFxP::process`. -/
def AmpFxP.process (a : AmpFxP) (signal gain : List SampleFxP) :
    List SampleFxP × AmpFxP :=
  let numsamples := min_size [signal.length, gain.length, STATIC_BUFFER_SIZE]
  let buf := AmpFxP.runFrom signal gain a.outbuf 0 numsamples
  ((List.range numsamples).map buf, ⟨buf⟩)

/-- Modelled from the spec: the `fixedmath` module is not in the excerpt, so
its three filter helpers are kept as parameters of the development.  Per the
spec, `midiNoteToFreq` converts a fixed-point MIDI note (`U7F9` raw) to a
frequency (`U14F2` raw) via `440 * 2^((note-69)/12)`; `tanFixed` is a
fixed-point tangent approximation mapping a `U0F16` raw angle (in units of
`2*pi/4096` per the `FRAC_4096_2PI_SR` scaling) to a `U1F15` raw result,
with documented reduced accuracy above roughly half the Nyquist frequency;
`oneOverOnePlus` is the piecewise reciprocal approximation of §4.2, mapping
a `U3F29` raw value `k` to a normalized reciprocal of `1 + k` (`U1F15` raw)
plus a right-shift amount.  No claim settled below depends on their values. -/
structure FixedMath where
  midiNoteToFreq : NoteFxP → Nat
  tanFixed : Nat → Nat
  oneOverOnePlus : Nat → Nat × Nat

/-- The constant `FRAC_4096_2PI_SR` of `devices/mod.rs` as its raw `U0F32`
bits: `0x0.9565925d` is `0x9565925d / 2^32`. -/
def FRAC_4096_2PI_SR : Nat := 0x9565925d

/-- The output view of `FiltFxP::process` (`FiltOutputFxP`). -/
structure FiltOutputFxP where
  low : List SampleFxP
  band : List SampleFxP
  high : List SampleFxP

/-- The fixed-point state-variable filter `FiltFxP` of `devices/filt.rs`:
three `SampleFxP` output buffers plus `I12F20` state (raw value `v`,
represented value `v / 2^20`). -/
structure FiltFxP where
  low : Nat → SampleFxP
  band : Nat → SampleFxP
  high : Nat → SampleFxP
  low_z : Int
  band_z : Int

/-- The constant `FiltFxP::RES_MAX` as its raw `U0F16` bits:
`0x0.F000` is `0xF000 / 2^16`. -/
def FiltFxP.RES_MAX : ScalarFxP := 0xF000

/-- The constructor `FiltFxP::new`. -/
def FiltFxP.new : FiltFxP :=
  { low := fun _ => 0, band := fun _ => 0, high := fun _ => 0
    low_z := 0, band_z := 0 }

/-- The resonance coefficient computed by `FiltFxP::process`:
`ScalarFxP::MAX - min(resonance[i], RES_MAX)` (raw `U0F16` arithmetic). -/
def FiltFxP.resOf (r : ScalarFxP) : ScalarFxP :=
  scalarMax - min r FiltFxP.RES_MAX

/-- The helper `FiltFxP::prewarped_gain`: widen the note's frequency to
`U14F2`, multiply by `FRAC_4096_2PI_SR` (`U14F34` result), shift right 13,
narrow to `U0F16` (dropping 18 fraction bits), and take `tan_fixed`. -/
def FiltFxP.prewarped_gain (FM : FixedMath) (n : NoteFxP) : Nat :=
  let f_c := FM.midiNoteToFreq n
  let omega_d := f_c * FRAC_4096_2PI_SR / 2 ^ 13 / 2 ^ 18
  FM.tanFixed omega_d

/-- One iteration of the loop body of `FiltFxP::process` at index `i`, in
raw fixed-point integer arithmetic.  Formats follow the source's type
annotations: `gain` U1F15, `gain2`/`gain_r`/`k`/`gain_plus_2r` U3F29,
`band_high_feedback` I7F25, the state I12F20, buffer entries I4F12;
each `from_num` narrowing floors away fraction bits, each
`saturating_from_num` also clamps to the target range. -/
def FiltFxP.step (FM : FixedMath) (input : List SampleFxP)
    (cutoff : List NoteFxP) (resonance : List ScalarFxP)
    (s : FiltFxP) (i : Nat) : FiltFxP :=
  let res := FiltFxP.resOf (resonance.getD i 0)
  let gain := FiltFxP.prewarped_gain FM (cutoff.getD i 0)
  let gain2 := gain * gain / 2
  let gain_r := res * gain / 4
  let k := gain2 + gain_r * 2
  let di := FM.oneOverOnePlus k
  let gain_plus_2r := res * 2 ^ 13 * 2 + gain * 2 ^ 14
  let band_high_feedback : Int := (gain_plus_2r / 2 ^ 16 : Nat) * i12f20_to_sample s.band_z
  let high_num := i12f20_to_sample
    ((input.getD i 0) * 2 ^ 8 - Int.fdiv band_high_feedback (2 ^ 5) - s.low_z)
  let high_unshifted : Int := high_num * (di.1 : Int)
  let hi := satSample (Int.fdiv (Int.fdiv high_unshifted (2 ^ di.2)) (2 ^ 15))
  let band_gain := Int.fdiv ((gain : Int) * hi) (2 ^ 7)
  let band := band_gain + s.band_z
  let bi := i12f20_to_sample (band_gain + s.band_z)
  let low_gain := Int.fdiv ((gain : Int) * bi) (2 ^ 7)
  let low := low_gain + s.low_z
  let li := i12f20_to_sample low
  { low := updW s.low i li, band := updW s.band i bi, high := updW s.high i hi
    low_z := low + low_gain, band_z := band + band_gain }

/-- The loop of `FiltFxP::process`. -/
def FiltFxP.runFrom (FM : FixedMath) (input : List SampleFxP)
    (cutoff : List NoteFxP) (resonance : List ScalarFxP) :
    FiltFxP → Nat → Nat → FiltFxP
  | s, _, 0 => s
  | s, i, k + 1 =>
      FiltFxP.runFrom FM input cutoff resonance
        (FiltFxP.step FM input cutoff resonance s i) (i + 1) k

/-- The sample count of `FiltFxP::process`:
`min(min(input.len(), cutoff.len()), min(resonance.len(), STATIC_BUFFER_SIZE))`. -/
def FiltFxP.numsamples (input : List SampleFxP) (cutoff : List NoteFxP)
    (resonance : List ScalarFxP) : Nat :=
  min (min input.length cutoff.length) (min resonance.length STATIC_BUFFER_SIZE)

/-- The state of a `FiltFxP` instance after the first `j` loop iterations
of a `process` call. -/
def FiltFxP.stateAfter (FM : FixedMath) (input : List SampleFxP)
    (cutoff : List NoteFxP) (resonance : List ScalarFxP)
    (s : FiltFxP) (j : Nat) : FiltFxP :=
  FiltFxP.runFrom FM input cutoff resonance s 0 j

/-- The method `FiltFxP::process`. -/
def FiltFxP.process (FM : FixedMath) (s : FiltFxP) (input : List SampleFxP)
    (cutoff : List NoteFxP) (resonance : List ScalarFxP) :
    FiltOutputFxP × FiltFxP :=
  let numsamples := FiltFxP.numsamples input cutoff resonance
  let s2 := FiltFxP.runFrom FM input cutoff resonance s 0 numsamples
  (⟨(List.range numsamples).map s2.low, (List.range numsamples).map s2.band,
    (List.range numsamples).map s2.high⟩, s2)

/-- The slice built by `std::slice::from_raw_parts(ptr.offset(offset),
samples)`: `samples` consecutive elements of the pointed-to memory starting
at `offset`.  Memory behind a non-null pointer is a total map `Nat → α`. -/
def sliceOf {α : Type} (mem : Nat → α) (offset samples : Nat) : List α :=
  (List.range samples).map fun j => mem (offset + j)

/-- The foreign entry point `janus_filt_u16_process` of `devices/filt.rs`.
Each pointer argument is `Option` of its pointee (`none` = null); the three
output-pointer arguments are modelled by whether they are non-null plus, in
the result, the views written through them.  The function returns `-1` and
writes nothing if any pointer is null; otherwise it runs
`FiltFxP::process` on the three `samples`-length slices and returns the
produced length together with the three output views and the updated
instance. -/
def janus_filt_u16_process (FM : FixedMath) (p : Option FiltFxP)
    (samples : Nat) (input : Option (Nat → SampleFxP))
    (cutoff : Option (Nat → NoteFxP)) (resonance : Option (Nat → ScalarFxP))
    (low band high : Bool) (offset : Nat) :
    Int × Option (List SampleFxP × List SampleFxP × List SampleFxP × FiltFxP) :=
  match p, input, cutoff, resonance, low, band, high with
  | some st, some im, some cm, some rm, true, true, true =>
      let out := FiltFxP.process FM st (sliceOf im offset samples)
        (sliceOf cm offset samples) (sliceOf rm offset samples)
      ((out.1.low.length : Int), some (out.1.low, out.1.band, out.1.high, out.2))
  | _, _, _, _, _, _, _ => (-1, none)

/-- The foreign entry point `janus_filt_f32_process` of `devices/filt.rs`,
modelled like `janus_filt_u16_process` but over the floating-point filter. -/
def janus_filt_f32_process (F : FloatOps Smp) (p : Option (Filt Smp))
    (samples : Nat) (input cutoff resonance : Option (Nat → Smp))
    (low band high : Bool) (offset : Nat) :
    Int × Option (List Smp × List Smp × List Smp × Filt Smp) :=
  match p, input, cutoff, resonance, low, band, high with
  | some st, some im, some cm, some rm, true, true, true =>
      let out := Filt.process F st (sliceOf im offset samples)
        (sliceOf cm offset samples) (sliceOf rm offset samples)
      ((out.1.low.length : Int), some (out.1.low, out.1.band, out.1.high, out.2))
  | _, _, _, _, _, _, _ => (-1, none)

theorem Filt.runFrom_add (F : FloatOps Smp) (a b c : List Smp) (s : Filt Smp)
    (i k1 k2 : Nat) :
    Filt.runFrom F a b c s i (k1 + k2) =
      Filt.runFrom F a b c (Filt.runFrom F a b c s i k1) (i + k1) k2 := by
  induction k1 generalizing s i with
  | zero => simp [Filt.runFrom]
  | succ k ih =>
      have h1 : k + 1 + k2 = (k + k2) + 1 := by omega
      rw [h1]
      simp only [Filt.runFrom]
      rw [ih]
      congr 1
      omega

theorem Filt.runFrom_succ_back (F : FloatOps Smp) (a b c : List Smp)
    (s : Filt Smp) (i k : Nat) :
    Filt.runFrom F a b c s i (k + 1) =
      Filt.step F a b c (Filt.runFrom F a b c s i k) (i + k) := by
  rw [Filt.runFrom_add F a b c s i k 1]
  simp [Filt.runFrom]

theorem Filt.step_buf_ne (F : FloatOps Smp) (a b c : List Smp) (s : Filt Smp)
    (i j : Nat) (h : j ≠ i) :
    (Filt.step F a b c s i).low j = s.low j ∧
      (Filt.step F a b c s i).band j = s.band j ∧
      (Filt.step F a b c s i).high j = s.high j := by
  simp [Filt.step, updW, h]

theorem Filt.runFrom_frame (F : FloatOps Smp) (a b c : List Smp)
    (s : Filt Smp) (i k j : Nat) (h : j < i ∨ i + k ≤ j) :
    (Filt.runFrom F a b c s i k).low j = s.low j ∧
      (Filt.runFrom F a b c s i k).band j = s.band j ∧
      (Filt.runFrom F a b c s i k).high j = s.high j := by
  induction k generalizing s i with
  | zero => simp [Filt.runFrom]
  | succ k ih =>
      have hji : j ≠ i := by omega
      have h1 := Filt.step_buf_ne F a b c s i j hji
      have h2 := ih (Filt.step F a b c s i) (i + 1) (by omega)
      simp only [Filt.runFrom]
      exact ⟨h2.1.trans h1.1, h2.2.1.trans h1.2.1, h2.2.2.trans h1.2.2⟩

theorem Filt.runFrom_written (F : FloatOps Smp) (a b c : List Smp)
    (s : Filt Smp) (n j : Nat) (h : j < n) :
    (Filt.runFrom F a b c s 0 n).low j =
        (Filt.step F a b c (Filt.stateAfter F a b c s j) j).low j ∧
      (Filt.runFrom F a b c s 0 n).band j =
        (Filt.step F a b c (Filt.stateAfter F a b c s j) j).band j ∧
      (Filt.runFrom F a b c s 0 n).high j =
        (Filt.step F a b c (Filt.stateAfter F a b c s j) j).high j := by
  have hn : n = (j + 1) + (n - (j + 1)) := by omega
  rw [hn, Filt.runFrom_add]
  have hf := Filt.runFrom_frame F a b c (Filt.runFrom F a b c s 0 (j + 1))
    (0 + (j + 1)) (n - (j + 1)) j (by omega)
  have hs : Filt.runFrom F a b c s 0 (j + 1) =
      Filt.step F a b c (Filt.stateAfter F a b c s j) j := by
    rw [Filt.runFrom_succ_back]
    simp [Filt.stateAfter]
  rw [hs] at hf
  rw [hs]
  exact hf

theorem Filt.stateAfter_succ (F : FloatOps Smp) (a b c : List Smp)
    (s : Filt Smp) (j : Nat) :
    Filt.stateAfter F a b c s (j + 1) =
      Filt.step F a b c (Filt.stateAfter F a b c s j) j := by
  unfold Filt.stateAfter
  rw [Filt.runFrom_succ_back]
  simp

theorem FiltFxP.runFrom_add_fxp (FM : FixedMath) (a : List SampleFxP)
    (b : List NoteFxP) (c : List ScalarFxP) (s : FiltFxP) (i k1 k2 : Nat) :
    FiltFxP.runFrom FM a b c s i (k1 + k2) =
      FiltFxP.runFrom FM a b c (FiltFxP.runFrom FM a b c s i k1) (i + k1) k2 := by
  induction k1 generalizing s i with
  | zero => simp [FiltFxP.runFrom]
  | succ k ih =>
      have h1 : k + 1 + k2 = (k + k2) + 1 := by omega
      rw [h1]
      simp only [FiltFxP.runFrom]
      rw [ih]
      congr 1
      omega

theorem FiltFxP.runFrom_succ_back_fxp (FM : FixedMath) (a : List SampleFxP)
    (b : List NoteFxP) (c : List ScalarFxP) (s : FiltFxP) (i k : Nat) :
    FiltFxP.runFrom FM a b c s i (k + 1) =
      FiltFxP.step FM a b c (FiltFxP.runFrom FM a b c s i k) (i + k) := by
  rw [FiltFxP.runFrom_add_fxp FM a b c s i k 1]
  simp [FiltFxP.runFrom]

theorem FiltFxP.step_buf_ne_fxp (FM : FixedMath) (a : List SampleFxP)
    (b : List NoteFxP) (c : List ScalarFxP) (s : FiltFxP) (i j : Nat)
    (h : j ≠ i) :
    (FiltFxP.step FM a b c s i).low j = s.low j ∧
      (FiltFxP.step FM a b c s i).band j = s.band j ∧
      (FiltFxP.step FM a b c s i).high j = s.high j := by
  simp [FiltFxP.step, updW, h]

theorem FiltFxP.runFrom_frame_fxp (FM : FixedMath) (a : List SampleFxP)
    (b : List NoteFxP) (c : List ScalarFxP) (s : FiltFxP) (i k j : Nat)
    (h : j < i ∨ i + k ≤ j) :
    (FiltFxP.runFrom FM a b c s i k).low j = s.low j ∧
      (FiltFxP.runFrom FM a b c s i k).band j = s.band j ∧
      (FiltFxP.runFrom FM a b c s i k).high j = s.high j := by
  induction k generalizing s i with
  | zero => simp [FiltFxP.runFrom]
  | succ k ih =>
      have hji : j ≠ i := by omega
      have h1 := FiltFxP.step_buf_ne_fxp FM a b c s i j hji
      have h2 := ih (FiltFxP.step FM a b c s i) (i + 1) (by omega)
      simp only [FiltFxP.runFrom]
      exact ⟨h2.1.trans h1.1, h2.2.1.trans h1.2.1, h2.2.2.trans h1.2.2⟩

theorem FiltFxP.runFrom_written_fxp (FM : FixedMath) (a : List SampleFxP)
    (b : List NoteFxP) (c : List ScalarFxP) (s : FiltFxP) (n j : Nat)
    (h : j < n) :
    (FiltFxP.runFrom FM a b c s 0 n).low j =
        (FiltFxP.step FM a b c (FiltFxP.stateAfter FM a b c s j) j).low j ∧
      (FiltFxP.runFrom FM a b c s 0 n).band j =
        (FiltFxP.step FM a b c (FiltFxP.stateAfter FM a b c s j) j).band j ∧
      (FiltFxP.runFrom FM a b c s 0 n).high j =
        (FiltFxP.step FM a b c (FiltFxP.stateAfter FM a b c s j) j).high j := by
  have hn : n = (j + 1) + (n - (j + 1)) := by omega
  rw [hn, FiltFxP.runFrom_add_fxp]
  have hf := FiltFxP.runFrom_frame_fxp FM a b c (FiltFxP.runFrom FM a b c s 0 (j + 1))
    (0 + (j + 1)) (n - (j + 1)) j (by omega)
  have hs : FiltFxP.runFrom FM a b c s 0 (j + 1) =
      FiltFxP.step FM a b c (FiltFxP.stateAfter FM a b c s j) j := by
    rw [FiltFxP.runFrom_succ_back_fxp]
    simp [FiltFxP.stateAfter]
  rw [hs] at hf
  rw [hs]
  exact hf

theorem FiltFxP.stateAfter_succ_fxp (FM : FixedMath) (a : List SampleFxP)
    (b : List NoteFxP) (c : List ScalarFxP) (s : FiltFxP) (j : Nat) :
    FiltFxP.stateAfter FM a b c s (j + 1) =
      FiltFxP.step FM a b c (FiltFxP.stateAfter FM a b c s j) j := by
  unfold FiltFxP.stateAfter
  rw [FiltFxP.runFrom_succ_back_fxp]
  simp

theorem Amp.runFrom_frame_amp (F : FloatOps Smp) (a b : List Smp)
    (buf : Nat → Smp) (i k j : Nat) (h : j < i ∨ i + k ≤ j) :
    Amp.runFrom F a b buf i k j = buf j := by
  induction k generalizing buf i with
  | zero => simp [Amp.runFrom]
  | succ k ih =>
      have hji : j ≠ i := by omega
      simp only [Amp.runFrom]
      rw [ih _ (i + 1) (by omega)]
      simp [updW, hji]

theorem Amp.runFrom_written_amp (F : FloatOps Smp) (a b : List Smp)
    (buf : Nat → Smp) (i k j : Nat) (hij : i ≤ j) (h : j < i + k) :
    Amp.runFrom F a b buf i k j = F.mul (a.getD j F.zero) (b.getD j F.zero) := by
  induction k generalizing buf i with
  | zero => omega
  | succ k ih =>
      simp only [Amp.runFrom]
      rcases Nat.eq_or_lt_of_le hij with heq | hlt
      · subst heq
        rw [Amp.runFrom_frame_amp F a b _ (i + 1) k i (by omega)]
        simp [updW]
      · exact ih _ (i + 1) hlt (by omega)

theorem AmpFxP.runFrom_frame_ampfxp (a b : List SampleFxP) (buf : Nat → SampleFxP)
    (i k j : Nat) (h : j < i ∨ i + k ≤ j) :
    AmpFxP.runFrom a b buf i k j = buf j := by
  induction k generalizing buf i with
  | zero => simp [AmpFxP.runFrom]
  | succ k ih =>
      have hji : j ≠ i := by omega
      simp only [AmpFxP.runFrom]
      rw [ih _ (i + 1) (by omega)]
      simp [updW, hji]

theorem AmpFxP.runFrom_written_ampfxp (a b : List SampleFxP) (buf : Nat → SampleFxP)
    (i k j : Nat) (hij : i ≤ j) (h : j < i + k) :
    AmpFxP.runFrom a b buf i k j = saturating_mul (a.getD j 0) (b.getD j 0) := by
  induction k generalizing buf i with
  | zero => omega
  | succ k ih =>
      simp only [AmpFxP.runFrom]
      rcases Nat.eq_or_lt_of_le hij with heq | hlt
      · subst heq
        rw [AmpFxP.runFrom_frame_ampfxp a b _ (i + 1) k i (by omega)]
        simp [updW]
      · exact ih _ (i + 1) hlt (by omega)

theorem range_map_getD {α : Type} (f : Nat → α) (n i : Nat) (d : α)
    (h : i < n) : ((List.range n).map f).getD i d = f i := by
  simp [List.getD_eq_getElem?_getD, List.getElem?_map, List.getElem?_range, h]

theorem sampleVal_satSample (x : Int) :
    sampleVal (satSample x) = max (-8 : ℚ) (min (32767 / 4096 : ℚ) (sampleVal x)) := by
  have key : min (32767 : ℤ) (max (-32768) x) = max (-32768) (min 32767 x) := by
    omega
  unfold sampleVal satSample
  have h8 : (-8 : ℚ) = (-32768 : ℚ) / 4096 := by norm_num
  rw [h8, min_div_div_right (show (0:ℚ) ≤ 4096 by norm_num),
    max_div_div_right (show (0:ℚ) ≤ 4096 by norm_num), key]
  push_cast
  ring

theorem floor_prod_val (a b : Int) :
    (⌊sampleVal a * sampleVal b * 4096⌋ : Int) = Int.fdiv (a * b) 4096 := by
  unfold sampleVal
  have h1 : (a : ℚ) / 4096 * ((b : ℚ) / 4096) * 4096
      = ((a * b : Int) : ℚ) / ((4096 : ℕ) : ℚ) := by
    push_cast
    ring
  rw [h1, Rat.floor_intCast_div_natCast, Int.fdiv_eq_ediv _ (by norm_num)]
  norm_num

/-- C1: for every call to `Amp::process`, `AmpFxP::process`, `Filt::process`
and `FiltFxP::process`, with input slices of arbitrary independent lengths
(including zero), the returned output view has length exactly the minimum
of the lengths of every input stream and the buffer capacity 256. -/
theorem claim_C1_output_length {Smp : Type} (F : FloatOps Smp) (FM : FixedMath)
    (a : Amp Smp) (afx : AmpFxP) (s : Filt Smp) (sfx : FiltFxP)
    (signal gain input cutoff resonance : List Smp)
    (sigF gF inF : List SampleFxP) (cutF : List NoteFxP)
    (resF : List ScalarFxP) :
    (Amp.process F a signal gain).1.length
        = min (min signal.length gain.length) 256 ∧
      (AmpFxP.process afx sigF gF).1.length
        = min (min sigF.length gF.length) 256 ∧
      ((Filt.process F s input cutoff resonance).1.low.length
          = min (min input.length (min cutoff.length resonance.length)) 256 ∧
        (Filt.process F s input cutoff resonance).1.band.length
          = min (min input.length (min cutoff.length resonance.length)) 256 ∧
        (Filt.process F s input cutoff resonance).1.high.length
          = min (min input.length (min cutoff.length resonance.length)) 256) ∧
      ((FiltFxP.process FM sfx inF cutF resF).1.low.length
          = min (min inF.length (min cutF.length resF.length)) 256 ∧
        (FiltFxP.process FM sfx inF cutF resF).1.band.length
          = min (min inF.length (min cutF.length resF.length)) 256 ∧
        (FiltFxP.process FM sfx inF cutF resF).1.high.length
          = min (min inF.length (min cutF.length resF.length)) 256) := by
  simp [Amp.process, AmpFxP.process, Filt.process, FiltFxP.process,
    Filt.numsamples, FiltFxP.numsamples, FiltParams.len, min_size,
    STATIC_BUFFER_SIZE]
  omega

/-- C2: for every sample `i` processed by `Filt::process`, the high-pass
output equals `(input[i] - (2*res + gain)*band_z - low_z) / (gain^2 +
2*res*gain + 1)`, where `res = 1 -` the clamped resonance, `gain =
tan(pi * f_c / 44100)` with `f_c = 440 * 2^((cutoff[i] - 69) / 12)`, and
`band_z`/`low_z` are the persistent state values prior to sample `i`; the
gain coefficient is recomputed from `cutoff[i]` for every sample. -/
theorem claim_C2_highpass_formula {Smp : Type} (F : FloatOps Smp)
    (s : Filt Smp) (input cutoff resonance : List Smp) (i : Nat)
    (h : i < Filt.numsamples input cutoff resonance) :
    (Filt.process F s input cutoff resonance).1.high.getD i F.zero =
      (let r := resonance.getD i F.zero
       let res := F.sub F.one (if F.lt r F.resMax then r else F.resMax)
       let f_c := F.mul (F.ofNat 440)
         (F.exp2 (F.div (F.sub (cutoff.getD i F.zero) (F.ofNat 69)) (F.ofNat 12)))
       let gain := F.tan (F.div (F.mul F.pi f_c) (F.ofNat 44100))
       let band_z := (Filt.stateAfter F input cutoff resonance s i).band_z
       let low_z := (Filt.stateAfter F input cutoff resonance s i).low_z
       F.div
         (F.sub (F.sub (input.getD i F.zero)
             (F.mul (F.add (F.mul F.two res) gain) band_z)) low_z)
         (F.add (F.add (F.mul gain gain) (F.mul (F.mul F.two res) gain)) F.one)) := by
  have hw := Filt.runFrom_written F input cutoff resonance s
    (Filt.numsamples input cutoff resonance) i h
  simp only [Filt.process]
  rw [range_map_getD _ _ _ _ h, hw.2.2]
  simp [Filt.step, Filt.resOf, updW, Filt.prewarped_gain,
    midi_note_to_frequency, SAMPLE_RATE]

/-- C3: for every sample `i` processed by `Filt::process`, the band-pass
output equals `gain*high + band_z` after which `band_z` becomes
`band + gain*high`, and the low-pass output equals `gain*band + low_z`
after which `low_z` becomes `low + gain*band`; the state is threaded
sequentially from one sample to the next (`stateAfter (i+1) = step
(stateAfter i) i`) and persists across successive `process` calls (the
second call's loop starts from the first call's final state). -/
theorem claim_C3_band_low_state {Smp : Type} (F : FloatOps Smp)
    (s : Filt Smp) (input cutoff resonance input2 cutoff2 resonance2 : List Smp)
    (i : Nat) (h : i < Filt.numsamples input cutoff resonance) :
    (let out := (Filt.process F s input cutoff resonance).1
     let gain := Filt.prewarped_gain F (cutoff.getD i F.zero)
     let hi := out.high.getD i F.zero
     let bi := out.band.getD i F.zero
     let li := out.low.getD i F.zero
     let sti := Filt.stateAfter F input cutoff resonance s i
     let sti1 := Filt.stateAfter F input cutoff resonance s (i + 1)
     bi = F.add (F.mul gain hi) sti.band_z ∧
       sti1.band_z = F.add bi (F.mul gain hi) ∧
       li = F.add (F.mul gain bi) sti.low_z ∧
       sti1.low_z = F.add li (F.mul gain bi) ∧
       sti1 = Filt.step F input cutoff resonance sti i ∧
       (Filt.process F s input cutoff resonance).2 =
         Filt.stateAfter F input cutoff resonance s
           (Filt.numsamples input cutoff resonance) ∧
       (Filt.process F (Filt.process F s input cutoff resonance).2
           input2 cutoff2 resonance2).2 =
         Filt.stateAfter F input2 cutoff2 resonance2
           ((Filt.process F s input cutoff resonance).2)
           (Filt.numsamples input2 cutoff2 resonance2)) := by
  have hw := Filt.runFrom_written F input cutoff resonance s
    (Filt.numsamples input cutoff resonance) i h
  simp only [Filt.process]
  rw [range_map_getD _ _ _ _ h, range_map_getD _ _ _ _ h,
    range_map_getD _ _ _ _ h, hw.1, hw.2.1, hw.2.2,
    Filt.stateAfter_succ F input cutoff resonance s i]
  simp [Filt.step, updW, Filt.stateAfter]

/-- C4 counterexample: the claim states that in `FiltFxP` the coefficient
used in the recursion is `res = 1 - clamped_resonance`.  At resonance raw
value 0 the code computes `res = ScalarFxP::MAX - 0 = 0x0.FFFF`, whose
value `65535/65536` is not `1 - 0 = 1`: `ScalarFxP::MAX` is `1 - 2^-16`,
not one. -/
theorem claim_C4_counterexample :
    scalarVal (FiltFxP.resOf 0) ≠ 1 - scalarVal (min 0 FiltFxP.RES_MAX) := by
  norm_num [FiltFxP.resOf, scalarVal, scalarMax, FiltFxP.RES_MAX]

/-- C4 amended: in both filter variants the resonance input is clamped to a
constant `RES_MAX` strictly less than one before use.  In the
floating-point variant the coefficient used in the recursion is
`res = ONE - clamped_resonance` (with ceiling `0xF000/0xFFFF < 1` in the
`f32`/`f64` trait implementations); in `FiltFxP` (RES_MAX = `0x0.F000`,
value `0.9375 < 1`) the coefficient is `res = ScalarFxP::MAX -
clamped_resonance`, i.e. `(1 - 2^-16) - clamped_resonance`, one
`ScalarFxP` quantum below `1 - clamped_resonance`. -/
theorem claim_C4_amended {Smp : Type} (F : FloatOps Smp) (r : Smp)
    (rF : ScalarFxP) :
    Filt.resOf F r = F.sub F.one (if F.lt r F.resMax then r else F.resMax) ∧
      floatImplResMax < 1 ∧
      FiltFxP.resOf rF = scalarMax - min rF FiltFxP.RES_MAX ∧
      scalarVal (min rF FiltFxP.RES_MAX) ≤ scalarVal FiltFxP.RES_MAX ∧
      scalarVal FiltFxP.RES_MAX < 1 ∧
      scalarVal (FiltFxP.resOf rF) =
        scalarVal scalarMax - scalarVal (min rF FiltFxP.RES_MAX) ∧
      scalarVal scalarMax = 1 - 1 / 65536 := by
  refine ⟨rfl, by norm_num [floatImplResMax], rfl, ?_, ?_, ?_, ?_⟩
  · unfold scalarVal
    have hle : min rF FiltFxP.RES_MAX ≤ FiltFxP.RES_MAX := min_le_right _ _
    have : ((min rF FiltFxP.RES_MAX : ℕ) : ℚ) ≤ ((FiltFxP.RES_MAX : ℕ) : ℚ) := by
      exact_mod_cast hle
    exact div_le_div_of_nonneg_right this (by norm_num)
  · norm_num [scalarVal, FiltFxP.RES_MAX]
  · unfold scalarVal FiltFxP.resOf
    have hle : min rF FiltFxP.RES_MAX ≤ scalarMax := by
      have h1 : min rF FiltFxP.RES_MAX ≤ FiltFxP.RES_MAX := min_le_right _ _
      have h2 : FiltFxP.RES_MAX ≤ scalarMax := by
        unfold FiltFxP.RES_MAX scalarMax
        norm_num
      exact h1.trans h2
    rw [Nat.cast_sub hle]
    ring
  · norm_num [scalarVal, scalarMax]

/-- C6: for every index below the output length, the floating-point `Amp`
computes `output[i] = signal[i] * gain[i]`, and the fixed-point `AmpFxP`
computes the product `signal[j] * gain[j]` quantized to the I4F12 grid and
saturated (clamped) to the representable minimum `-8` and maximum
`32767/4096` of the audio-sample format, rather than wrapped. -/
theorem claim_C6_amp_gain {Smp : Type} (F : FloatOps Smp) (a : Amp Smp)
    (afx : AmpFxP) (signal gain : List Smp) (sigF gF : List SampleFxP)
    (i j : Nat)
    (hi : i < min_size [signal.length, gain.length, STATIC_BUFFER_SIZE])
    (hj : j < min_size [sigF.length, gF.length, STATIC_BUFFER_SIZE]) :
    (Amp.process F a signal gain).1.getD i F.zero
        = F.mul (signal.getD i F.zero) (gain.getD i F.zero) ∧
      sampleVal ((AmpFxP.process afx sigF gF).1.getD j 0)
        = max (-8 : ℚ) (min (32767 / 4096 : ℚ)
            (((⌊sampleVal (sigF.getD j 0) * sampleVal (gF.getD j 0) * 4096⌋ : ℤ) : ℚ)
              / 4096)) := by
  constructor
  · simp only [Amp.process]
    rw [range_map_getD _ _ _ _ hi]
    exact Amp.runFrom_written_amp F signal gain a.outbuf 0 _ i (Nat.zero_le i)
      (by omega)
  · simp only [AmpFxP.process]
    rw [range_map_getD _ _ _ _ hj]
    rw [AmpFxP.runFrom_written_ampfxp sigF gF afx.outbuf 0 _ j (Nat.zero_le j)
      (by omega)]
    rw [floor_prod_val]
    unfold saturating_mul
    rw [sampleVal_satSample]
    rfl

/-- C10: if any input slice passed to `Filt::process` or `FiltFxP::process`
is empty, the call returns empty low/band/high output views and leaves the
persistent filter state exactly unchanged; no error is raised and the call
is a no-op on the instance's state. -/
theorem claim_C10_empty_input_noop {Smp : Type} (F : FloatOps Smp)
    (FM : FixedMath) (s : Filt Smp) (sfx : FiltFxP)
    (input cutoff resonance : List Smp)
    (inF : List SampleFxP) (cutF : List NoteFxP) (resF : List ScalarFxP)
    (hF : input = [] ∨ cutoff = [] ∨ resonance = [])
    (hX : inF = [] ∨ cutF = [] ∨ resF = []) :
    ((Filt.process F s input cutoff resonance).1.low = [] ∧
        (Filt.process F s input cutoff resonance).1.band = [] ∧
        (Filt.process F s input cutoff resonance).1.high = [] ∧
        (Filt.process F s input cutoff resonance).2 = s) ∧
      ((FiltFxP.process FM sfx inF cutF resF).1.low = [] ∧
        (FiltFxP.process FM sfx inF cutF resF).1.band = [] ∧
        (FiltFxP.process FM sfx inF cutF resF).1.high = [] ∧
        (FiltFxP.process FM sfx inF cutF resF).2 = sfx) := by
  have hn : Filt.numsamples input cutoff resonance = 0 := by
    rcases hF with h | h | h <;> simp [Filt.numsamples, FiltParams.len, h]
  have hm : FiltFxP.numsamples inF cutF resF = 0 := by
    rcases hX with h | h | h <;> simp [FiltFxP.numsamples, h]
  refine ⟨⟨?_, ?_, ?_, ?_⟩, ⟨?_, ?_, ?_, ?_⟩⟩ <;>
    simp [Filt.process, FiltFxP.process, hn, hm, Filt.runFrom, FiltFxP.runFrom]

/-- C9: a `process` call writes only indices `[0, n)` of the device's
internal output buffers, where `n` is the minimum of the input lengths and
256: buffer contents at any index at or above `n` after the call are
exactly what they were before the call.  (The caller-provided input slices
are shared `&[_]` references and are immutable by construction; in this
functional embedding the input lists are values and cannot be modified.) -/
theorem claim_C9_frame {Smp : Type} (F : FloatOps Smp) (FM : FixedMath)
    (a : Amp Smp) (afx : AmpFxP) (s : Filt Smp) (sfx : FiltFxP)
    (signal gain input cutoff resonance : List Smp)
    (sigF gF inF : List SampleFxP) (cutF : List NoteFxP) (resF : List ScalarFxP)
    (j1 j2 j3 j4 : Nat)
    (h1 : min_size [signal.length, gain.length, STATIC_BUFFER_SIZE] ≤ j1)
    (h2 : min_size [sigF.length, gF.length, STATIC_BUFFER_SIZE] ≤ j2)
    (h3 : Filt.numsamples input cutoff resonance ≤ j3)
    (h4 : FiltFxP.numsamples inF cutF resF ≤ j4) :
    (Amp.process F a signal gain).2.outbuf j1 = a.outbuf j1 ∧
      (AmpFxP.process afx sigF gF).2.outbuf j2 = afx.outbuf j2 ∧
      ((Filt.process F s input cutoff resonance).2.low j3 = s.low j3 ∧
        (Filt.process F s input cutoff resonance).2.band j3 = s.band j3 ∧
        (Filt.process F s input cutoff resonance).2.high j3 = s.high j3) ∧
      ((FiltFxP.process FM sfx inF cutF resF).2.low j4 = sfx.low j4 ∧
        (FiltFxP.process FM sfx inF cutF resF).2.band j4 = sfx.band j4 ∧
        (FiltFxP.process FM sfx inF cutF resF).2.high j4 = sfx.high j4) := by
  refine ⟨?_, ?_, ?_, ?_⟩
  · simp only [Amp.process]
    exact Amp.runFrom_frame_amp F signal gain a.outbuf 0 _ j1 (Or.inr (by omega))
  · simp only [AmpFxP.process]
    exact AmpFxP.runFrom_frame_ampfxp sigF gF afx.outbuf 0 _ j2 (Or.inr (by omega))
  · simp only [Filt.process]
    exact Filt.runFrom_frame F input cutoff resonance s 0 _ j3
      (Or.inr (by omega))
  · simp only [FiltFxP.process]
    exact FiltFxP.runFrom_frame_fxp FM inF cutF resF sfx 0 _ j4
      (Or.inr (by omega))

theorem Filt.step_zdep (F : FloatOps Smp) (a b c : List Smp) {s t : Filt Smp}
    (h1 : s.low_z = t.low_z) (h2 : s.band_z = t.band_z) (i : Nat) :
    (Filt.step F a b c s i).low_z = (Filt.step F a b c t i).low_z ∧
      (Filt.step F a b c s i).band_z = (Filt.step F a b c t i).band_z ∧
      (Filt.step F a b c s i).low i = (Filt.step F a b c t i).low i ∧
      (Filt.step F a b c s i).band i = (Filt.step F a b c t i).band i ∧
      (Filt.step F a b c s i).high i = (Filt.step F a b c t i).high i := by
  simp [Filt.step, updW, h1, h2]

theorem Filt.stateAfter_zdep (F : FloatOps Smp) (a b c : List Smp)
    {s t : Filt Smp} (h1 : s.low_z = t.low_z) (h2 : s.band_z = t.band_z)
    (j : Nat) :
    (Filt.stateAfter F a b c s j).low_z = (Filt.stateAfter F a b c t j).low_z ∧
      (Filt.stateAfter F a b c s j).band_z =
        (Filt.stateAfter F a b c t j).band_z := by
  induction j with
  | zero => exact ⟨h1, h2⟩
  | succ j ih =>
      rw [Filt.stateAfter_succ, Filt.stateAfter_succ]
      have h := Filt.step_zdep F a b c ih.1 ih.2 j
      exact ⟨h.1, h.2.1⟩

/-- C8: every `process` call is a pure, deterministic function of the
instance's explicit state and its input slices: two `Filt` instances with
equal state fields (`low_z`, `band_z`), given equal inputs, produce equal
low/band/high outputs and end with equal state fields, and two `Amp`
instances given equal inputs produce equal outputs — no hidden or global
state is involved (the embedding itself is a pure function, so any two
calls at identical arguments are definitionally equal). -/
theorem claim_C8_pure_deterministic {Smp : Type} (F : FloatOps Smp)
    (s t : Filt Smp) (a1 a2 : Amp Smp)
    (input cutoff resonance signal gain : List Smp)
    (h1 : s.low_z = t.low_z) (h2 : s.band_z = t.band_z) :
    ((Filt.process F s input cutoff resonance).1.low =
        (Filt.process F t input cutoff resonance).1.low ∧
      (Filt.process F s input cutoff resonance).1.band =
        (Filt.process F t input cutoff resonance).1.band ∧
      (Filt.process F s input cutoff resonance).1.high =
        (Filt.process F t input cutoff resonance).1.high ∧
      (Filt.process F s input cutoff resonance).2.low_z =
        (Filt.process F t input cutoff resonance).2.low_z ∧
      (Filt.process F s input cutoff resonance).2.band_z =
        (Filt.process F t input cutoff resonance).2.band_z) ∧
      (Amp.process F a1 signal gain).1 = (Amp.process F a2 signal gain).1 := by
  constructor
  · simp only [Filt.process]
    have hz := fun j => Filt.stateAfter_zdep F input cutoff resonance h1 h2 j
    have hv : ∀ x, x < Filt.numsamples input cutoff resonance →
        (Filt.runFrom F input cutoff resonance s 0
            (Filt.numsamples input cutoff resonance)).low x =
          (Filt.runFrom F input cutoff resonance t 0
            (Filt.numsamples input cutoff resonance)).low x ∧
        (Filt.runFrom F input cutoff resonance s 0
            (Filt.numsamples input cutoff resonance)).band x =
          (Filt.runFrom F input cutoff resonance t 0
            (Filt.numsamples input cutoff resonance)).band x ∧
        (Filt.runFrom F input cutoff resonance s 0
            (Filt.numsamples input cutoff resonance)).high x =
          (Filt.runFrom F input cutoff resonance t 0
            (Filt.numsamples input cutoff resonance)).high x := by
      intro x hx
      have hws := Filt.runFrom_written F input cutoff resonance s _ x hx
      have hwt := Filt.runFrom_written F input cutoff resonance t _ x hx
      have hstep := Filt.step_zdep F input cutoff resonance (hz x).1 (hz x).2 x
      exact ⟨hws.1.trans (hstep.2.2.1.trans hwt.1.symm),
        hws.2.1.trans (hstep.2.2.2.1.trans hwt.2.1.symm),
        hws.2.2.trans (hstep.2.2.2.2.trans hwt.2.2.symm)⟩
    refine ⟨?_, ?_, ?_, (hz _).1, (hz _).2⟩
    · exact List.map_congr_left fun x hx =>
        (hv x (List.mem_range.mp hx)).1
    · exact List.map_congr_left fun x hx =>
        (hv x (List.mem_range.mp hx)).2.1
    · exact List.map_congr_left fun x hx =>
        (hv x (List.mem_range.mp hx)).2.2
  · simp only [Amp.process]
    refine List.map_congr_left fun x hx => ?_
    have hx2 := List.mem_range.mp hx
    rw [Amp.runFrom_written_amp F signal gain a1.outbuf 0 _ x (Nat.zero_le x)
      (by omega)]
    rw [Amp.runFrom_written_amp F signal gain a2.outbuf 0 _ x (Nat.zero_le x)
      (by omega)]

theorem janus_filt_u16_null_iff (FM : FixedMath) (p : Option FiltFxP)
    (samples : Nat) (input : Option (Nat → SampleFxP))
    (cutoff : Option (Nat → NoteFxP)) (resonance : Option (Nat → ScalarFxP))
    (low band high : Bool) (offset : Nat) :
    ((janus_filt_u16_process FM p samples input cutoff resonance
        low band high offset).1 < 0 ↔
      (p = none ∨ input = none ∨ cutoff = none ∨ resonance = none ∨
        low = false ∨ band = false ∨ high = false)) ∧
    ((janus_filt_u16_process FM p samples input cutoff resonance
        low band high offset).1 < 0 →
      (janus_filt_u16_process FM p samples input cutoff resonance
        low band high offset).2 = none) := by
  rcases p with _ | st <;> rcases input with _ | im <;> rcases cutoff with _ | cm <;>
    rcases resonance with _ | rm <;> rcases low with _ | _ <;>
    rcases band with _ | _ <;> rcases high with _ | _ <;>
    simp [janus_filt_u16_process]

theorem janus_filt_u16_ok (FM : FixedMath) (st : FiltFxP) (samples : Nat)
    (im : Nat → SampleFxP) (cm : Nat → NoteFxP) (rm : Nat → ScalarFxP)
    (offset : Nat) :
    (janus_filt_u16_process FM (some st) samples (some im) (some cm) (some rm)
        true true true offset).1 = ((min samples 256 : Nat) : Int) ∧
    ∃ lo bd hi st2,
      (janus_filt_u16_process FM (some st) samples (some im) (some cm) (some rm)
          true true true offset).2 = some (lo, bd, hi, st2) ∧
        lo.length = min samples 256 ∧ bd.length = min samples 256 ∧
        hi.length = min samples 256 := by
  have hlen : FiltFxP.numsamples (sliceOf im offset samples)
      (sliceOf cm offset samples) (sliceOf rm offset samples)
        = min samples 256 := by
    simp [FiltFxP.numsamples, sliceOf, STATIC_BUFFER_SIZE]
  refine ⟨?_, ?_⟩
  · simp [janus_filt_u16_process, FiltFxP.process, hlen]
  · refine ⟨_, _, _, _, rfl, ?_, ?_, ?_⟩ <;>
      simp [janus_filt_u16_process, FiltFxP.process, hlen]

theorem janus_filt_f32_null_iff {Smp : Type} (F : FloatOps Smp)
    (p : Option (Filt Smp)) (samples : Nat)
    (input cutoff resonance : Option (Nat → Smp))
    (low band high : Bool) (offset : Nat) :
    ((janus_filt_f32_process F p samples input cutoff resonance
        low band high offset).1 < 0 ↔
      (p = none ∨ input = none ∨ cutoff = none ∨ resonance = none ∨
        low = false ∨ band = false ∨ high = false)) ∧
    ((janus_filt_f32_process F p samples input cutoff resonance
        low band high offset).1 < 0 →
      (janus_filt_f32_process F p samples input cutoff resonance
        low band high offset).2 = none) := by
  rcases p with _ | st <;> rcases input with _ | im <;> rcases cutoff with _ | cm <;>
    rcases resonance with _ | rm <;> rcases low with _ | _ <;>
    rcases band with _ | _ <;> rcases high with _ | _ <;>
    simp [janus_filt_f32_process]

theorem janus_filt_f32_ok {Smp : Type} (F : FloatOps Smp) (st : Filt Smp)
    (samples : Nat) (im cm rm : Nat → Smp) (offset : Nat) :
    (janus_filt_f32_process F (some st) samples (some im) (some cm) (some rm)
        true true true offset).1 = ((min samples 256 : Nat) : Int) ∧
    ∃ lo bd hi st2,
      (janus_filt_f32_process F (some st) samples (some im) (some cm) (some rm)
          true true true offset).2 = some (lo, bd, hi, st2) ∧
        lo.length = min samples 256 ∧ bd.length = min samples 256 ∧
        hi.length = min samples 256 := by
  have hlen : Filt.numsamples (sliceOf im offset samples)
      (sliceOf cm offset samples) (sliceOf rm offset samples)
        = min samples 256 := by
    simp [Filt.numsamples, FiltParams.len, sliceOf, STATIC_BUFFER_SIZE]
    omega
  refine ⟨?_, ?_⟩
  · simp [janus_filt_f32_process, Filt.process, hlen]
  · refine ⟨_, _, _, _, rfl, ?_, ?_, ?_⟩ <;>
      simp [janus_filt_f32_process, Filt.process, hlen]

/-- C5: the foreign entry points `janus_filt_u16_process` and
`janus_filt_f32_process` return a negative value if and only if some
pointer argument is null, and in that case write nothing through the
low/band/high output pointers; when all pointers are non-null they return
the non-negative number of samples produced, `min(samples, 256)`, and set
the three output pointers to views of exactly that length. -/
theorem claim_C5_ffi_null_and_length {Smp : Type} (F : FloatOps Smp)
    (FM : FixedMath) (p : Option FiltFxP) (pf : Option (Filt Smp))
    (samples offset : Nat) (input : Option (Nat → SampleFxP))
    (cutoff : Option (Nat → NoteFxP)) (resonance : Option (Nat → ScalarFxP))
    (inputf cutofff resonancef : Option (Nat → Smp))
    (low band high lowf bandf highf : Bool)
    (st : FiltFxP) (im : Nat → SampleFxP) (cm : Nat → NoteFxP)
    (rm : Nat → ScalarFxP) (stf : Filt Smp) (imf cmf rmf : Nat → Smp) :
    ((janus_filt_u16_process FM p samples input cutoff resonance
        low band high offset).1 < 0 ↔
      (p = none ∨ input = none ∨ cutoff = none ∨ resonance = none ∨
        low = false ∨ band = false ∨ high = false)) ∧
    ((janus_filt_u16_process FM p samples input cutoff resonance
        low band high offset).1 < 0 →
      (janus_filt_u16_process FM p samples input cutoff resonance
        low band high offset).2 = none) ∧
    ((janus_filt_u16_process FM (some st) samples (some im) (some cm) (some rm)
        true true true offset).1 = ((min samples 256 : Nat) : Int) ∧
      ∃ lo bd hi st2,
        (janus_filt_u16_process FM (some st) samples (some im) (some cm)
            (some rm) true true true offset).2 = some (lo, bd, hi, st2) ∧
          lo.length = min samples 256 ∧ bd.length = min samples 256 ∧
          hi.length = min samples 256) ∧
    ((janus_filt_f32_process F pf samples inputf cutofff resonancef
        lowf bandf highf offset).1 < 0 ↔
      (pf = none ∨ inputf = none ∨ cutofff = none ∨ resonancef = none ∨
        lowf = false ∨ bandf = false ∨ highf = false)) ∧
    ((janus_filt_f32_process F pf samples inputf cutofff resonancef
        lowf bandf highf offset).1 < 0 →
      (janus_filt_f32_process F pf samples inputf cutofff resonancef
        lowf bandf highf offset).2 = none) ∧
    ((janus_filt_f32_process F (some stf) samples (some imf) (some cmf)
        (some rmf) true true true offset).1 = ((min samples 256 : Nat) : Int) ∧
      ∃ lo bd hi st2,
        (janus_filt_f32_process F (some stf) samples (some imf) (some cmf)
            (some rmf) true true true offset).2 = some (lo, bd, hi, st2) ∧
          lo.length = min samples 256 ∧ bd.length = min samples 256 ∧
          hi.length = min samples 256) :=
  ⟨(janus_filt_u16_null_iff FM p samples input cutoff resonance
      low band high offset).1,
    (janus_filt_u16_null_iff FM p samples input cutoff resonance
      low band high offset).2,
    janus_filt_u16_ok FM st samples im cm rm offset,
    (janus_filt_f32_null_iff F pf samples inputf cutofff resonancef
      lowf bandf highf offset).1,
    (janus_filt_f32_null_iff F pf samples inputf cutofff resonancef
      lowf bandf highf offset).2,
    janus_filt_f32_ok F stf samples imf cmf rmf offset⟩

/-- A concrete instantiation of the `Float` interface over the rationals,
used to evaluate the generic device theorems at concrete inputs.  The
theorems hold for every instantiation, so `tan`/`exp2`/`pi` may be any
total functions and values here. -/
def ratOps : FloatOps ℚ :=
  { add := fun a b => a + b, sub := fun a b => a - b, mul := fun a b => a * b
    div := fun a b => a / b, lt := fun a b => decide (a < b)
    tan := fun x => x, exp2 := fun x => x, pi := 3
    ofNat := fun n => (n : ℚ), zero := 0, one := 1, two := 2, resMax := 15 / 16 }

/-- A concrete instantiation of the spec-modelled `fixedmath` helpers, used
to evaluate the fixed-point theorems at concrete inputs (they hold for
every instantiation). -/
def fmTrivial : FixedMath :=
  ⟨fun _ => 0, fun _ => 0, fun _ => (0, 0)⟩

theorem claim_C2_witness :
    0 < Filt.numsamples ([1] : List ℚ) [2] [3] ∧
      (Filt.process ratOps (Filt.new ratOps) [1] [2] [3]).1.high.getD 0
          ratOps.zero =
        (let r := ([3] : List ℚ).getD 0 ratOps.zero
         let res := ratOps.sub ratOps.one
           (if ratOps.lt r ratOps.resMax then r else ratOps.resMax)
         let f_c := ratOps.mul (ratOps.ofNat 440)
           (ratOps.exp2 (ratOps.div
             (ratOps.sub (([2] : List ℚ).getD 0 ratOps.zero) (ratOps.ofNat 69))
             (ratOps.ofNat 12)))
         let gain := ratOps.tan (ratOps.div (ratOps.mul ratOps.pi f_c)
           (ratOps.ofNat 44100))
         let band_z := (Filt.stateAfter ratOps [1] [2] [3]
           (Filt.new ratOps) 0).band_z
         let low_z := (Filt.stateAfter ratOps [1] [2] [3]
           (Filt.new ratOps) 0).low_z
         ratOps.div
           (ratOps.sub (ratOps.sub (([1] : List ℚ).getD 0 ratOps.zero)
               (ratOps.mul (ratOps.add (ratOps.mul ratOps.two res) gain)
                 band_z)) low_z)
           (ratOps.add (ratOps.add (ratOps.mul gain gain)
             (ratOps.mul (ratOps.mul ratOps.two res) gain)) ratOps.one)) :=
  ⟨by decide,
    claim_C2_highpass_formula ratOps (Filt.new ratOps) [1] [2] [3] 0 (by decide)⟩

theorem claim_C3_witness :
    0 < Filt.numsamples ([1] : List ℚ) [2] [3] ∧
      (Filt.process ratOps (Filt.new ratOps) [1] [2] [3]).1.band.getD 0
          ratOps.zero =
        ratOps.add
          (ratOps.mul (Filt.prewarped_gain ratOps (([2] : List ℚ).getD 0 ratOps.zero))
            ((Filt.process ratOps (Filt.new ratOps) [1] [2] [3]).1.high.getD 0
              ratOps.zero))
          (Filt.stateAfter ratOps [1] [2] [3] (Filt.new ratOps) 0).band_z := by
  refine ⟨by decide, ?_⟩
  exact (claim_C3_band_low_state ratOps (Filt.new ratOps) [1] [2] [3]
    [] [] [] 0 (by decide)).1

theorem claim_C5_witness :
    (janus_filt_u16_process fmTrivial none 5 none none none
        false false false 0).1 < 0 ∧
      (janus_filt_f32_process ratOps none 5 none none none
        false false false 0).1 < 0 := by
  constructor
  · exact (claim_C5_ffi_null_and_length ratOps fmTrivial none none 5 0
      none none none none none none false false false false false false
      FiltFxP.new (fun _ => 0) (fun _ => 0) (fun _ => 0)
      (Filt.new ratOps) (fun _ => 0) (fun _ => 0) (fun _ => 0)).1.mpr
      (Or.inl rfl)
  · exact (claim_C5_ffi_null_and_length ratOps fmTrivial none none 5 0
      none none none none none none false false false false false false
      FiltFxP.new (fun _ => 0) (fun _ => 0) (fun _ => 0)
      (Filt.new ratOps) (fun _ => 0) (fun _ => 0) (fun _ => 0)).2.2.2.1.mpr
      (Or.inl rfl)

theorem claim_C6_witness :
    0 < min_size [([2] : List ℚ).length, ([3] : List ℚ).length,
        STATIC_BUFFER_SIZE] ∧
      0 < min_size [([4096] : List SampleFxP).length,
        ([4096] : List SampleFxP).length, STATIC_BUFFER_SIZE] ∧
      ((Amp.process ratOps (Amp.new ratOps) [2] [3]).1.getD 0 ratOps.zero
          = ratOps.mul (([2] : List ℚ).getD 0 ratOps.zero)
            (([3] : List ℚ).getD 0 ratOps.zero) ∧
        sampleVal ((AmpFxP.process AmpFxP.new [4096] [4096]).1.getD 0 0)
          = max (-8 : ℚ) (min (32767 / 4096 : ℚ)
              (((⌊sampleVal (([4096] : List SampleFxP).getD 0 0) *
                  sampleVal (([4096] : List SampleFxP).getD 0 0) * 4096⌋ : ℤ) : ℚ)
                / 4096))) :=
  ⟨by decide, by decide,
    claim_C6_amp_gain ratOps (Amp.new ratOps) AmpFxP.new [2] [3] [4096] [4096]
      0 0 (by decide) (by decide)⟩

theorem claim_C8_witness :
    (Filt.new ratOps).low_z
        = (⟨fun _ => 7, fun _ => 8, fun _ => 9, 0, 0⟩ : Filt ℚ).low_z ∧
      (Filt.new ratOps).band_z
        = (⟨fun _ => 7, fun _ => 8, fun _ => 9, 0, 0⟩ : Filt ℚ).band_z ∧
      (((Filt.process ratOps (Filt.new ratOps) [1] [2] [3]).1.low =
          (Filt.process ratOps
            (⟨fun _ => 7, fun _ => 8, fun _ => 9, 0, 0⟩ : Filt ℚ)
            [1] [2] [3]).1.low ∧
        (Filt.process ratOps (Filt.new ratOps) [1] [2] [3]).1.band =
          (Filt.process ratOps
            (⟨fun _ => 7, fun _ => 8, fun _ => 9, 0, 0⟩ : Filt ℚ)
            [1] [2] [3]).1.band ∧
        (Filt.process ratOps (Filt.new ratOps) [1] [2] [3]).1.high =
          (Filt.process ratOps
            (⟨fun _ => 7, fun _ => 8, fun _ => 9, 0, 0⟩ : Filt ℚ)
            [1] [2] [3]).1.high ∧
        (Filt.process ratOps (Filt.new ratOps) [1] [2] [3]).2.low_z =
          (Filt.process ratOps
            (⟨fun _ => 7, fun _ => 8, fun _ => 9, 0, 0⟩ : Filt ℚ)
            [1] [2] [3]).2.low_z ∧
        (Filt.process ratOps (Filt.new ratOps) [1] [2] [3]).2.band_z =
          (Filt.process ratOps
            (⟨fun _ => 7, fun _ => 8, fun _ => 9, 0, 0⟩ : Filt ℚ)
            [1] [2] [3]).2.band_z) ∧
        (Amp.process ratOps (Amp.new ratOps) [1] [2]).1 =
          (Amp.process ratOps (⟨fun _ => 7⟩ : Amp ℚ) [1] [2]).1) :=
  ⟨rfl, rfl,
    claim_C8_pure_deterministic ratOps (Filt.new ratOps)
      ⟨fun _ => 7, fun _ => 8, fun _ => 9, 0, 0⟩ (Amp.new ratOps)
      ⟨fun _ => 7⟩ [1] [2] [3] [1] [2] rfl rfl⟩

theorem claim_C9_witness :
    min_size [([1] : List ℚ).length, ([2] : List ℚ).length,
        STATIC_BUFFER_SIZE] ≤ 5 ∧
      min_size [([4096] : List SampleFxP).length,
        ([4096] : List SampleFxP).length, STATIC_BUFFER_SIZE] ≤ 5 ∧
      Filt.numsamples ([1] : List ℚ) [2] [3] ≤ 5 ∧
      FiltFxP.numsamples [4096] [100] [200] ≤ 5 ∧
      ((Amp.process ratOps (⟨fun _ => 9⟩ : Amp ℚ) [1] [2]).2.outbuf 5
          = (⟨fun _ => 9⟩ : Amp ℚ).outbuf 5 ∧
        (AmpFxP.process (⟨fun _ => 3⟩ : AmpFxP) [4096] [4096]).2.outbuf 5
          = (⟨fun _ => 3⟩ : AmpFxP).outbuf 5 ∧
        ((Filt.process ratOps
            (⟨fun _ => 1, fun _ => 2, fun _ => 3, 4, 5⟩ : Filt ℚ)
            [1] [2] [3]).2.low 5
            = (⟨fun _ => 1, fun _ => 2, fun _ => 3, 4, 5⟩ : Filt ℚ).low 5 ∧
          (Filt.process ratOps
            (⟨fun _ => 1, fun _ => 2, fun _ => 3, 4, 5⟩ : Filt ℚ)
            [1] [2] [3]).2.band 5
            = (⟨fun _ => 1, fun _ => 2, fun _ => 3, 4, 5⟩ : Filt ℚ).band 5 ∧
          (Filt.process ratOps
            (⟨fun _ => 1, fun _ => 2, fun _ => 3, 4, 5⟩ : Filt ℚ)
            [1] [2] [3]).2.high 5
            = (⟨fun _ => 1, fun _ => 2, fun _ => 3, 4, 5⟩ : Filt ℚ).high 5) ∧
        ((FiltFxP.process fmTrivial
            (⟨fun _ => 1, fun _ => 2, fun _ => 3, 4, 5⟩ : FiltFxP)
            [4096] [100] [200]).2.low 5
            = (⟨fun _ => 1, fun _ => 2, fun _ => 3, 4, 5⟩ : FiltFxP).low 5 ∧
          (FiltFxP.process fmTrivial
            (⟨fun _ => 1, fun _ => 2, fun _ => 3, 4, 5⟩ : FiltFxP)
            [4096] [100] [200]).2.band 5
            = (⟨fun _ => 1, fun _ => 2, fun _ => 3, 4, 5⟩ : FiltFxP).band 5 ∧
          (FiltFxP.process fmTrivial
            (⟨fun _ => 1, fun _ => 2, fun _ => 3, 4, 5⟩ : FiltFxP)
            [4096] [100] [200]).2.high 5
            = (⟨fun _ => 1, fun _ => 2, fun _ => 3, 4, 5⟩ : FiltFxP).high 5)) :=
  ⟨by decide, by decide, by decide, by decide,
    claim_C9_frame ratOps fmTrivial (⟨fun _ => 9⟩ : Amp ℚ)
      (⟨fun _ => 3⟩ : AmpFxP)
      (⟨fun _ => 1, fun _ => 2, fun _ => 3, 4, 5⟩ : Filt ℚ)
      (⟨fun _ => 1, fun _ => 2, fun _ => 3, 4, 5⟩ : FiltFxP)
      [1] [2] [1] [2] [3] [4096] [4096] [4096] [100] [200]
      5 5 5 5 (by decide) (by decide) (by decide) (by decide)⟩

theorem claim_C10_witness :
    (([] : List ℚ) = [] ∨ ([2] : List ℚ) = [] ∨ ([3] : List ℚ) = []) ∧
      (([] : List SampleFxP) = [] ∨ ([100] : List NoteFxP) = [] ∨
        ([200] : List ScalarFxP) = []) ∧
      (((Filt.process ratOps (Filt.new ratOps) [] [2] [3]).1.low = [] ∧
        (Filt.process ratOps (Filt.new ratOps) [] [2] [3]).1.band = [] ∧
        (Filt.process ratOps (Filt.new ratOps) [] [2] [3]).1.high = [] ∧
        (Filt.process ratOps (Filt.new ratOps) [] [2] [3]).2 =
          Filt.new ratOps) ∧
      ((FiltFxP.process fmTrivial FiltFxP.new [] [100] [200]).1.low = [] ∧
        (FiltFxP.process fmTrivial FiltFxP.new [] [100] [200]).1.band = [] ∧
        (FiltFxP.process fmTrivial FiltFxP.new [] [100] [200]).1.high = [] ∧
        (FiltFxP.process fmTrivial FiltFxP.new [] [100] [200]).2 =
          FiltFxP.new)) :=
  ⟨Or.inl rfl, Or.inl rfl,
    claim_C10_empty_input_noop ratOps fmTrivial (Filt.new ratOps) FiltFxP.new
      [] [2] [3] [] [100] [200] (Or.inl rfl) (Or.inl rfl)⟩

end Janus
